import Mathlib

/-! Shallow embedding of the WhatsApp-to-Botpress voice middleware
(src/middleware.py): JSON values with the Python operation semantics the
handlers rely on, the webhook dispatcher, the asynchronous voice pipeline,
and the bot callback endpoint. External I/O (HTTP calls, the recognizer,
the file system) is modelled by outcome oracles; each handler is a pure
function from its inputs and oracle to its HTTP response and the ordered
trace of its observable effects. -/

namespace Middleware

/-- JSON values as returned by request.get_json: Python dicts become
association lists (parsing leaves no duplicate keys), JSON null becomes
Python None, modelled as the null constructor. -/
inductive Json where
  | null
  | bool (b : Bool)
  | num (n : Int)
  | str (s : String)
  | arr (elems : List Json)
  | obj (fields : List (String × Json))

/-- Python truthiness of a parsed JSON value: None, False, 0, the empty
string and empty containers are falsy. -/
def pyTruthy : Json → Bool
  | .null => false
  | .bool b => b
  | .num n => n != 0
  | .str s => s != ""
  | .arr xs => !xs.isEmpty
  | .obj fs => !fs.isEmpty

/-- Python comparison of a value with a string literal: equal exactly when
the value is that string (comparing any other type with a str is False,
never an error). -/
def pyIsStr (v : Json) (s : String) : Bool :=
  match v with
  | .str t => t == s
  | _ => false

/-- Dictionary lookup on the fields of a parsed JSON object. -/
def jlookup (fs : List (String × Json)) (k : String) : Option Json :=
  (fs.find? (fun kv => kv.1 == k)).map (fun kv => kv.2)

/-- Python subscripting v[k] with a string key: a KeyError on a dict
without the key, a TypeError on any non-dict value; both raise. -/
def pyIndex (v : Json) (k : String) : Except Unit Json :=
  match v with
  | .obj fs =>
    match jlookup fs k with
    | some x => .ok x
    | none => .error ()
  | _ => .error ()

/-- Python v.get(k): defined on dicts only (AttributeError raises on any
other value); returns the value when the key is present, else None
(modelled as Option.none, so a caller's default argument can be applied). -/
def pyGetAttr (v : Json) (k : String) : Except Unit (Option Json) :=
  match v with
  | .obj fs => .ok (jlookup fs k)
  | _ => .error ()

/-- Membership of one character list in another, as Python substring
containment tests it. -/
def listContainsSub (needle hay : List Char) : Bool :=
  needle.isPrefixOf hay ||
    match hay with
    | [] => false
    | _ :: t => listContainsSub needle t

/-- Python k in v for a string k: key membership on a dict, element
equality on a list, substring test on a str; a TypeError raises on
non-container values. -/
def pyContains (v : Json) (k : String) : Except Unit Bool :=
  match v with
  | .obj fs => .ok (fs.any (fun kv => kv.1 == k))
  | .arr xs =>
    .ok (xs.any (fun x =>
      match x with
      | .str s => s == k
      | _ => false))
  | .str s => .ok (listContainsSub k.data s.data)
  | _ => .error ()

/-- Python iteration over a value: a list yields its elements, a dict its
keys, a str its characters; other values raise a TypeError. -/
def pyIter (v : Json) : Except Unit (List Json) :=
  match v with
  | .arr xs => .ok xs
  | .obj fs => .ok (fs.map (fun kv => Json.str kv.1))
  | .str s => .ok (s.data.map (fun c => Json.str (String.mk [c])))
  | _ => .error ()

/-- Python s.startswith(p), on the character sequences of the strings. -/
def pyStartsWith (s p : String) : Bool :=
  p.data.isPrefixOf s.data

/-! The user-facing message strings of src/middleware.py, verbatim. -/

/-- Fallback sent when the media download yields nothing. -/
def downloadFailMsg : String :=
  "Sorry, I couldn't download your voice message. Please try again."

/-- Immediate acknowledgment sent in the webhook handler for audio. -/
def ackMsg : String := "🎤 I received your voice message! Processing..."

/-- Sentinel returned by convert_voice_to_text on sr.UnknownValueError. -/
def noSpeechMsg : String := "Sorry, I couldn't understand the audio clearly."

/-- Sentinel returned when Google recognition errors and Sphinx also fails. -/
def svcUnavailMsg : String :=
  "Sorry, I'm having trouble with voice recognition right now."

/-- Sentinel returned by the outer exception handler of convert_voice_to_text. -/
def processErrMsg : String := "Sorry, I couldn't process the voice message."

/-- Default used on line 210 when the transcription string is empty. -/
def defaultUnderstandMsg : String :=
  "Sorry, I couldn't understand the voice message."

/-- Echo message sent when forwarding a transcription to Botpress fails. -/
def echoMsg (t : String) : String :=
  "I heard: \"" ++ t ++
    "\"\n\nBut I'm having trouble connecting to my brain right now. Please try again in a moment."

/-! Media Fetcher: download_whatsapp_media. -/

/-- Outcome oracle for the two HTTP calls of download_whatsapp_media: the
metadata call may lack a url field, either call may time out or fail, or
the download succeeds with the response bytes. -/
inductive MediaFetchOutcome where
  | ok (bytes : List Nat)
  | noUrl
  | timeout
  | requestError
  | otherError
  deriving DecidableEq

/-- download_whatsapp_media returns the downloaded bytes, or None on a
missing url field, a timeout, a request error or any other exception (all
caught locally, lines 41 to 59 of src/middleware.py). -/
def download_whatsapp_media : MediaFetchOutcome → Option (List Nat)
  | .ok bs => some bs
  | .noUrl => none
  | .timeout => none
  | .requestError => none
  | .otherError => none

/-! Audio Transcoder plus Speech Recognizer: convert_voice_to_text. -/

/-- Temporary media files created by convert_voice_to_text: the compressed
container written from the downloaded bytes, and the exported waveform. -/
inductive TempFile where
  | ogg
  | wav
  deriving DecidableEq, BEq

/-- Outcome of the recognition attempt once a waveform file exists:
Google succeeds with text, reports no speech (sr.UnknownValueError),
or errors (sr.RequestError) after which the Sphinx fallback either
succeeds with text or fails too. -/
inductive RecogOutcome where
  | googleOk (t : String)
  | noSpeech
  | googleFailSphinxOk (t : String)
  | serviceUnavailable
  deriving DecidableEq

/-- Control path through convert_voice_to_text: the initial write of the
bytes into the container temp file can raise before its path is recorded,
AudioSegment.from_ogg can raise before the waveform path is assigned,
any later step (export, opening the waveform, noise calibration,
recording) can raise after the waveform path is assigned (the waveform
file itself may or may not have been created by then), or the recognition
attempt runs to one of its outcomes. -/
inductive ConvertPath where
  | writeFail
  | decodeFail
  | processCrash (wavCreated : Bool)
  | recognized (r : RecogOutcome)
  deriving DecidableEq

/-- Result of one convert_voice_to_text call: the returned string, the
temp files created on disk during the call, and the files whose paths
were recorded and therefore unlinked by the finally block (os.unlink
wrapped in a bare except, a no-op when the file does not exist). -/
structure ConvertResult where
  text : String
  created : List TempFile
  cleaned : List TempFile
  deriving DecidableEq

/-- convert_voice_to_text, lines 61 to 109 of src/middleware.py: every
failure is converted into a sentinel string starting with the word Sorry,
and the finally block unlinks exactly the temp paths recorded in
temp_ogg_path and temp_wav_path. -/
def convert_voice_to_text : ConvertPath → ConvertResult
  | .writeFail => ⟨processErrMsg, [.ogg], []⟩
  | .decodeFail => ⟨processErrMsg, [.ogg], [.ogg]⟩
  | .processCrash wavCreated =>
    ⟨processErrMsg, if wavCreated then [.ogg, .wav] else [.ogg], [.ogg, .wav]⟩
  | .recognized (.googleOk t) => ⟨t, [.ogg, .wav], [.ogg, .wav]⟩
  | .recognized .noSpeech => ⟨noSpeechMsg, [.ogg, .wav], [.ogg, .wav]⟩
  | .recognized (.googleFailSphinxOk t) => ⟨t, [.ogg, .wav], [.ogg, .wav]⟩
  | .recognized .serviceUnavailable => ⟨svcUnavailMsg, [.ogg, .wav], [.ogg, .wav]⟩

/-! Bot Forwarder: send_to_botpress. -/

/-- Outcome oracle for send_to_botpress: the message POST returns 200 or
201 (success), another status, or either HTTP call times out or raises. -/
inductive BotpressOutcome where
  | ok200
  | created201
  | badStatus (code : Nat)
  | timeout
  | otherError
  deriving DecidableEq

/-- Result of send_to_botpress: the boolean the function returns, and the
WhatsApp notifications it sends to the user (none on any path, lines 111
to 149 of src/middleware.py: every failure is logged and returned as
False, never surfaced to the user from inside the forwarder). -/
structure ForwardResult where
  success : Bool
  notifierCalls : List (String × String)
  deriving DecidableEq

/-- send_to_botpress returns True exactly on HTTP 200 or 201 and makes no
Platform Notifier call on any path. -/
def send_to_botpress : BotpressOutcome → ForwardResult
  | .ok200 => ⟨true, []⟩
  | .created201 => ⟨true, []⟩
  | .badStatus _ => ⟨false, []⟩
  | .timeout => ⟨false, []⟩
  | .otherError => ⟨false, []⟩

/-- Outcome oracle for one send_whatsapp_message HTTP call. -/
inductive WaSendOutcome where
  | ok200
  | badStatus (code : Nat)
  | otherError
  deriving DecidableEq

/-- send_whatsapp_message returns True exactly on HTTP 200; every failure
is caught and returned as False (lines 151 to 182 of src/middleware.py). -/
def send_whatsapp_message : WaSendOutcome → Bool
  | .ok200 => true
  | .badStatus _ => false
  | .otherError => false

/-! Voice Pipeline Orchestrator: process_voice_message_async. -/

/-- Oracle for one background voice-pipeline run: the media fetch outcome,
the control path through convert_voice_to_text, and the outcome of the
Botpress forward (consulted only if the forward is attempted). -/
structure PipelineEnv where
  fetch : MediaFetchOutcome
  convertPath : ConvertPath
  forward : BotpressOutcome
  deriving DecidableEq

/-- Observable effects of one voice-pipeline run: the WhatsApp messages
sent to the user (recipient, body) in order, the Botpress forwards
(conversation id, text) in order, and how many times the transcoder ran. -/
structure PipelineTrace where
  userMsgs : List (String × String)
  botpressCalls : List (String × String)
  convertCalls : Nat
  deriving DecidableEq

/-- The pipeline treats the download as failed when download_whatsapp_media
returns None or empty bytes (the falsy check on line 192). -/
def downloadFalsyB (env : PipelineEnv) : Bool :=
  match download_whatsapp_media env.fetch with
  | none => true
  | some bs => bs.isEmpty

/-- The string convert_voice_to_text returns for the run's control path. -/
def convText (env : PipelineEnv) : String :=
  (convert_voice_to_text env.convertPath).text

/-- The success test on line 201: the transcription is truthy and does not
start with the sentinel prefix Sorry. -/
def textOkB (t : String) : Bool :=
  (t != "") && !(pyStartsWith t "Sorry")

/-- A run is fully successful when the download is truthy, the returned
transcription passes the line-201 test, and the Botpress forward returns
True. -/
def fullSuccessB (env : PipelineEnv) : Bool :=
  !(downloadFalsyB env) && textOkB (convText env)
    && (send_to_botpress env.forward).success

/-- process_voice_message_async, lines 184 to 214 of src/middleware.py:
download, convert, then either forward the transcription to Botpress
(echoing it back to the user if the forward fails) or send the sentinel
or empty-default string back to the user. The catch-all on line 212 is
unreachable in this model because every callee converts its own failures
into return values. -/
def process_voice_message_async (phone : String) (env : PipelineEnv) :
    PipelineTrace :=
  match download_whatsapp_media env.fetch with
  | none => ⟨[(phone, downloadFailMsg)], [], 0⟩
  | some bs =>
    if bs.isEmpty then ⟨[(phone, downloadFailMsg)], [], 0⟩
    else
      let t := (convert_voice_to_text env.convertPath).text
      if (t != "") && !(pyStartsWith t "Sorry") then
        if (send_to_botpress env.forward).success then
          ⟨[], [(phone, t)], 1⟩
        else
          ⟨[(phone, echoMsg t)], [(phone, t)], 1⟩
      else
        ⟨[(phone, if t == "" then defaultUnderstandMsg else t)], [], 1⟩

/-! Webhook Dispatcher: the webhook route, GET and POST. -/

/-- Response of the GET verification branch: the challenge string echoed
with status 200, the 403 rejection, or the 500 Flask produces when the
handler returns None (challenge parameter absent on a matching request). -/
inductive VerifyResponse where
  | challenge (s : String)
  | forbidden
  | internalError
  deriving DecidableEq

/-- GET branch of the webhook handler, lines 218 to 231 of
src/middleware.py: query parameters and the configured secret are
Optional strings (request.args.get returns None for a missing
parameter), and None equals None in Python. -/
def webhook_get (mode token challenge verifyToken : Option String) :
    VerifyResponse :=
  if mode == some "subscribe" && token == verifyToken then
    match challenge with
    | some c => .challenge c
    | none => .internalError
  else .forbidden

/-- Observable actions of the POST branch, in program order: a synchronous
WhatsApp send from inside the handler, submission of a voice-pipeline
task to the executor, submission of a text forward to the executor. -/
inductive Event where
  | sendWhatsApp (phone : Json) (msg : String)
  | submitVoiceTask (phone audioId : Json)
  | submitTextForward (phone text : Json)

/-- Per-message dispatch, lines 259 to 285 of src/middleware.py: the pair
is the events performed and whether control continued normally (False
when subscripting raised, aborting the whole processing loop). -/
def processMessage (m : Json) : List Event × Bool :=
  match pyIndex m "from" with
  | .error _ => ([], false)
  | .ok phone =>
    match pyIndex m "type" with
    | .error _ => ([], false)
    | .ok mtype =>
      if pyIsStr mtype "audio" then
        match pyIndex m "audio" with
        | .error _ => ([], false)
        | .ok a =>
          match pyIndex a "id" with
          | .error _ => ([], false)
          | .ok aid =>
            ([.sendWhatsApp phone ackMsg, .submitVoiceTask phone aid], true)
      else if pyIsStr mtype "text" then
        match pyIndex m "text" with
        | .error _ => ([], false)
        | .ok tv =>
          match pyIndex tv "body" with
          | .error _ => ([], false)
          | .ok body => ([.submitTextForward phone body], true)
      else ([], true)

/-- Runs a per-item step over a list, keeping the events already performed
and stopping at the first item whose processing raised; the exception
then propagates (second component False). -/
def runAll (f : Json → List Event × Bool) : List Json → List Event × Bool
  | [] => ([], true)
  | x :: rest =>
    let r := f x
    if r.2 then
      let r2 := runAll f rest
      (r.1 ++ r2.1, r2.2)
    else r

/-- Per-change dispatch, lines 249 to 285: read the value dict (default
empty), skip status-only updates, then process the messages list. -/
def processChange (change : Json) : List Event × Bool :=
  match pyGetAttr change "value" with
  | .error _ => ([], false)
  | .ok vOpt =>
    let value := vOpt.getD (Json.obj [])
    match pyContains value "statuses" with
    | .error _ => ([], false)
    | .ok true => ([], true)
    | .ok false =>
      match pyContains value "messages" with
      | .error _ => ([], false)
      | .ok false => ([], true)
      | .ok true =>
        match pyIndex value "messages" with
        | .error _ => ([], false)
        | .ok msgs =>
          match pyIter msgs with
          | .error _ => ([], false)
          | .ok ms => runAll processMessage ms

/-- Per-entry dispatch, lines 245 to 285: entries without a changes key
are skipped, all others have their changes iterated. -/
def processEntry (entry : Json) : List Event × Bool :=
  match pyContains entry "changes" with
  | .error _ => ([], false)
  | .ok false => ([], true)
  | .ok true =>
    match pyIndex entry "changes" with
    | .error _ => ([], false)
    | .ok cs =>
      match pyIter cs with
      | .error _ => ([], false)
      | .ok changes => runAll processChange changes

/-- Response of the POST branch: the success body with status 200, or the
400 Bad Request Flask raises from request.get_json when the body is not
valid JSON (line 235 runs before the protective try block of line 238). -/
inductive PostResponse where
  | success
  | badRequest
  deriving DecidableEq

/-- HTTP status code of a POST response. -/
def PostResponse.statusCode : PostResponse → Nat
  | .success => 200
  | .badRequest => 400

/-- POST branch of the webhook handler, lines 233 to 293 of
src/middleware.py: None stands for a body that request.get_json refuses.
Every exception raised while processing entries is caught on line 287
after the events already performed, and the handler then still returns
the success response. -/
def webhook_post (body : Option Json) : PostResponse × List Event :=
  match body with
  | none => (.badRequest, [])
  | some data =>
    match data with
    | .obj fs =>
      match jlookup fs "entry" with
      | none => (.success, [])
      | some e =>
        if pyTruthy e then
          match pyIter e with
          | .error _ => (.success, [])
          | .ok entries => (.success, (runAll processEntry entries).1)
        else (.success, [])
    | _ => (.success, [])

/-! Bot Callback Handler: the botpress-webhook route. -/

/-- Response of the bot callback endpoint: the success body with status
200, or the error body with status 500 produced by the catch-all of
line 317. -/
inductive BpResponse where
  | success200
  | error500
  deriving DecidableEq

/-- Bot callback handler, lines 295 to 321 of src/middleware.py: None
stands for a body that request.get_json refuses (that exception is
raised inside the try block here, unlike in the webhook POST handler).
Non-dict values raise AttributeError at .get and reach the same
catch-all. The boolean returned by send_whatsapp_message only gates a
log line, so the send outcome never changes the response. -/
def botpress_webhook (body : Option Json) (send : WaSendOutcome) :
    BpResponse × List (Json × Json) :=
  match body with
  | none => (.error500, [])
  | some data =>
    match data with
    | .obj fs =>
      let cid := (jlookup fs "conversationId").getD .null
      let mtype := (jlookup fs "type").getD .null
      if pyIsStr mtype "text" && pyTruthy cid then
        match jlookup fs "payload" with
        | none => (.success200, [])
        | some p =>
          match p with
          | .obj pf =>
            let botMessage := (jlookup pf "text").getD (.str "")
            if pyTruthy botMessage then
              let _ := send_whatsapp_message send
              (.success200, [(cid, botMessage)])
            else (.success200, [])
          | _ => (.error500, [])
      else (.success200, [])
    | _ => (.error500, [])

/-- Spec-side classifier for the amended bot-callback claim: the shapes of
request body on which the endpoint answers with the error response. -/
def botpressErrorCondition (body : Option Json) : Bool :=
  match body with
  | none => true
  | some data =>
    match data with
    | .obj fs =>
      let cid := (jlookup fs "conversationId").getD .null
      let mtype := (jlookup fs "type").getD .null
      if pyIsStr mtype "text" && pyTruthy cid then
        match jlookup fs "payload" with
        | none => false
        | some p =>
          match p with
          | .obj _ => false
          | _ => true
      else false
    | _ => true

/-! Concrete payloads used to evaluate the theorems on real inputs. -/

/-- A well-formed inbound text message. -/
def demoTextMessage : Json :=
  .obj [("from", .str "15551234567"), ("type", .str "text"),
        ("text", .obj [("body", .str "hello")])]

/-- A message entry missing its from field: subscripting it raises. -/
def demoBrokenMessage : Json := .obj [("type", .str "text")]

/-- A well-formed inbound audio message. -/
def demoAudioMessage : Json :=
  .obj [("from", .str "15559876543"), ("type", .str "audio"),
        ("audio", .obj [("id", .str "media1")])]

/-- Wraps a messages list in the nested entry, changes, value shape the
platform delivers. -/
def wrapMessages (msgs : List Json) : Json :=
  .obj [("entry", .arr [.obj [("changes", .arr [.obj [("value",
    .obj [("messages", .arr msgs)])]])]])]

/-- Ordering property of an event trace: every voice-pipeline submission
is preceded, strictly earlier in the trace, by the synchronous
acknowledgment send to the same sender. -/
def AckBefore (evs : List Event) : Prop :=
  ∀ (i : Nat) (p a : Json), evs[i]? = some (Event.submitVoiceTask p a) →
    ∃ j : Nat, j < i ∧ evs[j]? = some (Event.sendWhatsApp p ackMsg)

/-! Characterization lemmas shared by the claim theorems. -/

theorem pipeline_trace_eq (phone : String) (env : PipelineEnv) :
    process_voice_message_async phone env =
      if downloadFalsyB env then ⟨[(phone, downloadFailMsg)], [], 0⟩
      else if textOkB (convText env) then
        if (send_to_botpress env.forward).success then
          ⟨[], [(phone, convText env)], 1⟩
        else ⟨[(phone, echoMsg (convText env))], [(phone, convText env)], 1⟩
      else ⟨[(phone, if convText env == "" then defaultUnderstandMsg
                     else convText env)], [], 1⟩ := by
  unfold process_voice_message_async downloadFalsyB convText textOkB
  cases h : download_whatsapp_media env.fetch with
  | none => simp
  | some bs =>
    by_cases hb : bs.isEmpty <;> simp [hb]

/-- C1: every voice-pipeline run sends exactly one terminal notification to
the user unless it is a full success (download truthy, accepted
transcription, forward succeeded), in which case it sends none; the
notification is the download-failure message when the download is falsy,
the no-speech apology on sr.UnknownValueError, the recognition-unavailable
apology when both recognizers fail, and the echo of the transcription when
the Botpress forward fails; no terminal failure is dropped and none sends
two messages. -/
theorem voice_pipeline_single_terminal_notification (phone : String)
    (env : PipelineEnv) :
    ((process_voice_message_async phone env).userMsgs.length
        = if fullSuccessB env then 0 else 1)
  ∧ (downloadFalsyB env = true →
      (process_voice_message_async phone env).userMsgs
        = [(phone, downloadFailMsg)])
  ∧ (downloadFalsyB env = false →
      env.convertPath = .recognized .noSpeech →
      (process_voice_message_async phone env).userMsgs
        = [(phone, noSpeechMsg)])
  ∧ (downloadFalsyB env = false →
      env.convertPath = .recognized .serviceUnavailable →
      (process_voice_message_async phone env).userMsgs
        = [(phone, svcUnavailMsg)])
  ∧ (downloadFalsyB env = false → textOkB (convText env) = true →
      (send_to_botpress env.forward).success = false →
      (process_voice_message_async phone env).userMsgs
        = [(phone, echoMsg (convText env))])
  ∧ (fullSuccessB env = true →
      (process_voice_message_async phone env).userMsgs = []) := by
  rw [pipeline_trace_eq]
  refine ⟨?_, ?_, ?_, ?_, ?_, ?_⟩
  · rw [fullSuccessB]
    by_cases hd : downloadFalsyB env <;>
      by_cases ht : textOkB (convText env) <;>
        by_cases hf : (send_to_botpress env.forward).success <;>
          simp [hd, ht, hf]
  · intro hd; simp [hd]
  · intro hd hc
    have hct : convText env = noSpeechMsg := by rw [convText, hc]; rfl
    have hok : textOkB noSpeechMsg = false := by decide
    have hne : ¬(noSpeechMsg = "") := by decide
    simp [hd, hct, hok, hne]
  · intro hd hc
    have hct : convText env = svcUnavailMsg := by rw [convText, hc]; rfl
    have hok : textOkB svcUnavailMsg = false := by decide
    have hne : ¬(svcUnavailMsg = "") := by decide
    simp [hd, hct, hok, hne]
  · intro hd ht hf; simp [hd, ht, hf]
  · intro hs
    rw [fullSuccessB] at hs
    obtain ⟨⟨h1, h2⟩, h3⟩ := by simpa [Bool.and_eq_true] using hs
    simp [h1, h2, h3]

/-- C2 counterexample: a successful transcription whose text starts with
the word Sorry is not forwarded to Botpress at all; the pipeline instead
sends the transcription itself back to the user, because the line-201
test cannot tell such a transcription from the failure sentinels. -/
theorem voice_pipeline_drops_sorry_prefixed_transcription :
    (convert_voice_to_text
        (.recognized (.googleOk "Sorry I missed the meeting"))).text
      = "Sorry I missed the meeting"
  ∧ (process_voice_message_async "15551234567"
      ⟨.ok [1], .recognized (.googleOk "Sorry I missed the meeting"),
        .ok200⟩).botpressCalls = []
  ∧ (process_voice_message_async "15551234567"
      ⟨.ok [1], .recognized (.googleOk "Sorry I missed the meeting"),
        .ok200⟩).userMsgs
      = [("15551234567", "Sorry I missed the meeting")] := by
  refine ⟨rfl, ?_, ?_⟩ <;> rfl

/-- C2 amended: for every voice message whose recognition stage returns a
transcription that is nonempty and does not start with the word Sorry
(Google or the Sphinx fallback), the Bot Forwarder is called exactly once
with that text and the sender's phone number as conversation id, and on
forward success no further user-visible message is sent. -/
theorem voice_pipeline_forwards_accepted_transcription (phone t : String)
    (env : PipelineEnv)
    (hd : downloadFalsyB env = false)
    (hr : env.convertPath = .recognized (.googleOk t)
        ∨ env.convertPath = .recognized (.googleFailSphinxOk t))
    (ht : textOkB t = true) :
    (process_voice_message_async phone env).botpressCalls = [(phone, t)]
  ∧ ((send_to_botpress env.forward).success = true →
      (process_voice_message_async phone env).userMsgs = []) := by
  have hct : convText env = t := by
    rcases hr with h | h <;> (rw [convText, h]; rfl)
  rw [pipeline_trace_eq]
  constructor
  · by_cases hf : (send_to_botpress env.forward).success <;>
      simp [hd, hct, ht, hf]
  · intro hf; simp [hd, hct, ht, hf]

/-- C2 amended witness: a message recognized as hello there is forwarded
once with that exact text and the sender id, with no user message on
forward success. -/
theorem voice_pipeline_forwards_accepted_transcription_witness :
    (process_voice_message_async "15551234567"
        ⟨.ok [1], .recognized (.googleOk "hello there"), .ok200⟩).botpressCalls
      = [("15551234567", "hello there")]
  ∧ ((send_to_botpress BotpressOutcome.ok200).success = true →
      (process_voice_message_async "15551234567"
        ⟨.ok [1], .recognized (.googleOk "hello there"), .ok200⟩).userMsgs
        = []) :=
  voice_pipeline_forwards_accepted_transcription "15551234567" "hello there"
    ⟨.ok [1], .recognized (.googleOk "hello there"), .ok200⟩
    rfl (Or.inl rfl) (by decide)

/-- C4: when the media fetch yields no bytes (None from any failure, or an
empty byte string), the pipeline is terminal: exactly one download-failure
message to the user, no transcoder run, no Bot Forwarder call. -/
theorem download_failure_is_terminal (phone : String) (env : PipelineEnv)
    (h : downloadFalsyB env = true) :
    process_voice_message_async phone env
      = ⟨[(phone, downloadFailMsg)], [], 0⟩ := by
  rw [pipeline_trace_eq]; simp [h]

/-- C4 witness: a timed-out fetch produces only the download-failure
message, zero transcoder runs and zero Botpress calls. -/
theorem download_failure_is_terminal_witness :
    process_voice_message_async "15551234567"
        ⟨.timeout, .recognized .noSpeech, .ok200⟩
      = ⟨[("15551234567", downloadFailMsg)], [], 0⟩ :=
  download_failure_is_terminal "15551234567"
    ⟨.timeout, .recognized .noSpeech, .ok200⟩ rfl

/-- C7 counterexample: when the initial write of the downloaded bytes into
the container temp file raises, the file already exists on disk but its
path was never recorded in temp_ogg_path, so the finally block deletes
nothing: a created temporary file outlives the call. -/
theorem convert_write_failure_leaks_container :
    (convert_voice_to_text .writeFail).created = [.ogg]
  ∧ (convert_voice_to_text .writeFail).cleaned = [] :=
  ⟨rfl, rfl⟩

/-- C7 amended: on every exit path of convert_voice_to_text except a
failure of the initial temp-file write, every temporary file created
during the attempt is among the files unlinked by the finally block
before the call returns. -/
theorem convert_cleanup_outside_write_failure (p : ConvertPath)
    (h : p ≠ .writeFail) :
    ((convert_voice_to_text p).created.all
      (fun f => (convert_voice_to_text p).cleaned.contains f)) = true := by
  cases p with
  | writeFail => exact absurd rfl h
  | decodeFail => rfl
  | processCrash wavCreated => cases wavCreated <;> rfl
  | recognized r => cases r <;> rfl

/-- C7 amended witness: after a run that ends in the no-speech outcome,
both temp files created were unlinked. -/
theorem convert_cleanup_outside_write_failure_witness :
    ((convert_voice_to_text (.recognized .noSpeech)).created.all
      (fun f =>
        (convert_voice_to_text (.recognized .noSpeech)).cleaned.contains f))
      = true :=
  convert_cleanup_outside_write_failure (.recognized .noSpeech) (by decide)

/-- C6 counterexample: a GET verification request whose token equals the
configured secret but whose hub.mode is not subscribe is rejected with
the 403 response, not answered with the challenge. -/
theorem webhook_get_rejects_token_match_without_subscribe :
    webhook_get (some "unsubscribe") (some "sekrit") (some "12345")
        (some "sekrit")
      = .forbidden
  ∧ VerifyResponse.forbidden ≠ .challenge "12345" :=
  ⟨rfl, by decide⟩

/-- C6 amended: the GET verification succeeds, echoing the caller's
challenge, exactly when hub.mode is subscribe and the caller token equals
the configured secret; every other mode or token combination gets the
403 rejection (and a matching request with no challenge parameter makes
the handler return None, a server error). -/
theorem webhook_get_verification
    (mode token challenge verifyToken : Option String) (c : String) :
    (mode = some "subscribe" → token = verifyToken → challenge = some c →
      webhook_get mode token challenge verifyToken = .challenge c)
  ∧ (mode = some "subscribe" → token = verifyToken → challenge = none →
      webhook_get mode token challenge verifyToken = .internalError)
  ∧ (¬(mode = some "subscribe" ∧ token = verifyToken) →
      webhook_get mode token challenge verifyToken = .forbidden) := by
  refine ⟨?_, ?_, ?_⟩
  · intro h1 h2 h3; subst h1; subst h2; subst h3; simp [webhook_get]
  · intro h1 h2 h3; subst h1; subst h2; subst h3; simp [webhook_get]
  · intro h
    have hc : (mode == some "subscribe" && token == verifyToken) = false := by
      by_cases hm : mode = some "subscribe"
      · by_cases htk : token = verifyToken
        · exact absurd ⟨hm, htk⟩ h
        · simp [htk]
      · simp [hm]
    simp [webhook_get, hc]

/-- C3 counterexample: a POST body that request.get_json cannot parse
raises before the protective try block of line 238, so Flask answers 400
Bad Request, not the success acknowledgment. -/
theorem webhook_post_rejects_unparseable_body :
    (webhook_post none).1 = .badRequest
  ∧ (webhook_post none).1.statusCode = 400
  ∧ PostResponse.badRequest ≠ .success :=
  ⟨rfl, rfl, by decide⟩

/-- C3 amended: for every POST body that parses as JSON, whatever its
shape and even when processing its entries raises, the webhook handler
returns the success response with status 200. -/
theorem webhook_post_success_on_any_parsed_body (j : Json) :
    (webhook_post (some j)).1 = .success
  ∧ (webhook_post (some j)).1.statusCode = 200 := by
  have h : (webhook_post (some j)).1 = .success := by
    cases j with
    | obj fs =>
      rw [webhook_post]
      cases hl : jlookup fs "entry" with
      | none => rfl
      | some e =>
        by_cases ht : pyTruthy e
        · cases hi : pyIter e <;> simp [ht, hi]
        · simp [ht]
    | null => rfl
    | bool b => rfl
    | num n => rfl
    | str s => rfl
    | arr xs => rfl
  exact ⟨h, by rw [h]; rfl⟩

/-- C8 counterexample: a body that parses successfully to a JSON array
still gets the error response, because data.get raises AttributeError on
a list and the catch-all of line 317 answers with the 500 error body:
the error response is not reserved to parse failures. -/
theorem botpress_webhook_errors_on_parsed_array :
    (botpress_webhook (some (.arr [])) .ok200).1 = .error500
  ∧ BpResponse.error500 ≠ .success200 :=
  ⟨rfl, by decide⟩

/-- C8 amended: the bot-callback endpoint answers with the error response
exactly when the body fails to parse, parses to a non-object, or, on the
text path with a truthy conversationId, carries a payload field whose
value is not an object; every other parsed payload, including missing
type, conversationId or text (no-op) and regardless of the outcome of the
WhatsApp send, gets the success response. -/
theorem botpress_webhook_response_characterization (body : Option Json)
    (send : WaSendOutcome) :
    (botpress_webhook body send).1
      = (if botpressErrorCondition body then .error500 else .success200) := by
  cases body with
  | none => rfl
  | some data =>
    cases data with
    | obj fs =>
      rw [botpress_webhook, botpressErrorCondition]
      by_cases hc : (pyIsStr ((jlookup fs "type").getD .null) "text"
          && pyTruthy ((jlookup fs "conversationId").getD .null)) = true
      · simp only [hc, if_true]
        cases hp : jlookup fs "payload" with
        | none => rfl
        | some p =>
          cases p with
          | obj pf =>
            by_cases hb : pyTruthy ((jlookup pf "text").getD (.str ""))
            · simp [hb]
            · simp [hb]
          | null => rfl
          | bool b => rfl
          | num n => rfl
          | str s => rfl
          | arr xs => rfl
      · simp only [Bool.not_eq_true] at hc
        simp [hc]
    | null => rfl
    | bool b => rfl
    | num n => rfl
    | str s => rfl
    | arr xs => rfl

theorem processMessage_text_shape (m : Json)
    (hm : pyIndex m "type" = .ok (.str "text")) :
    (processMessage m).1 = []
  ∨ ∃ p b, (processMessage m).1 = [Event.submitTextForward p b] := by
  cases hf : pyIndex m "from" with
  | error e => simp [processMessage, hf]
  | ok phone =>
    cases htv : pyIndex m "text" with
    | error e => simp [processMessage, hf, hm, htv, pyIsStr]
    | ok tv =>
      cases hb : pyIndex tv "body" with
      | error e => simp [processMessage, hf, hm, htv, hb, pyIsStr]
      | ok body =>
        refine Or.inr ⟨phone, body, ?_⟩
        simp [processMessage, hf, hm, htv, hb, pyIsStr]

/-- C9: when an inbound text message's forward to Botpress fails, nothing
user-visible is sent: send_to_botpress makes no Platform Notifier call on
any outcome and its boolean result is discarded (the handler only submits
the forward task), and the text path of the dispatcher never emits a
WhatsApp send of its own. -/
theorem text_forward_failure_sends_nothing (o : BotpressOutcome) (m : Json)
    (hm : pyIndex m "type" = .ok (.str "text")) :
    (send_to_botpress o).notifierCalls = []
  ∧ (∀ p msg, Event.sendWhatsApp p msg ∉ (processMessage m).1)
  ∧ (∀ p a, Event.submitVoiceTask p a ∉ (processMessage m).1) := by
  refine ⟨by cases o <;> rfl, ?_, ?_⟩ <;>
  · intro p x
    rcases processMessage_text_shape m hm with h | ⟨q, b, h⟩ <;> simp [h]

/-- C9 witness: a timed-out forward of a concrete text message returns
False with no notifier call, and the dispatcher's events for that message
contain no WhatsApp send and no voice-task submission. -/
theorem text_forward_failure_sends_nothing_witness :
    (send_to_botpress .timeout).notifierCalls = []
  ∧ (∀ p msg, Event.sendWhatsApp p msg ∉ (processMessage demoTextMessage).1)
  ∧ (∀ p a, Event.submitVoiceTask p a ∉ (processMessage demoTextMessage).1) :=
  text_forward_failure_sends_nothing .timeout demoTextMessage rfl

theorem ackBefore_nil : AckBefore [] := by
  intro i p a h
  simp at h

theorem ackBefore_append {xs ys : List Event}
    (h1 : AckBefore xs) (h2 : AckBefore ys) : AckBefore (xs ++ ys) := by
  intro i p a h
  by_cases hi : i < xs.length
  · rw [List.getElem?_append_left hi] at h
    obtain ⟨j, hj, hg⟩ := h1 i p a h
    exact ⟨j, hj, by rw [List.getElem?_append_left (lt_trans hj hi)]; exact hg⟩
  · push_neg at hi
    rw [List.getElem?_append_right hi] at h
    obtain ⟨j, hj, hg⟩ := h2 _ p a h
    refine ⟨j + xs.length, by omega, ?_⟩
    rw [List.getElem?_append_right (by omega)]
    simpa using hg

theorem ackBefore_audio_pair (phone aid : Json) :
    AckBefore [Event.sendWhatsApp phone ackMsg,
               Event.submitVoiceTask phone aid] := by
  intro i p a h
  match i with
  | 0 => simp at h
  | 1 =>
    simp at h
    obtain ⟨hp, _⟩ := h
    exact ⟨0, by omega, by simp [hp]⟩
  | (n + 2) => simp at h

theorem ackBefore_text_single (phone body : Json) :
    AckBefore [Event.submitTextForward phone body] := by
  intro i p a h
  match i with
  | 0 => simp at h
  | (n + 1) => simp at h

theorem ackBefore_processMessage (m : Json) :
    AckBefore (processMessage m).1 := by
  cases hf : pyIndex m "from" with
  | error e => simp [processMessage, hf]; exact ackBefore_nil
  | ok phone =>
    cases hty : pyIndex m "type" with
    | error e => simp [processMessage, hf, hty]; exact ackBefore_nil
    | ok mtype =>
      cases ha : pyIsStr mtype "audio" with
      | true =>
        cases hau : pyIndex m "audio" with
        | error e =>
          simp [processMessage, hf, hty, ha, hau]; exact ackBefore_nil
        | ok av =>
          cases hid : pyIndex av "id" with
          | error e =>
            simp [processMessage, hf, hty, ha, hau, hid]; exact ackBefore_nil
          | ok aid =>
            simp [processMessage, hf, hty, ha, hau, hid]
            exact ackBefore_audio_pair phone aid
      | false =>
        cases htx : pyIsStr mtype "text" with
        | true =>
          cases htv : pyIndex m "text" with
          | error e =>
            simp [processMessage, hf, hty, ha, htx, htv]; exact ackBefore_nil
          | ok tv =>
            cases hb : pyIndex tv "body" with
            | error e =>
              simp [processMessage, hf, hty, ha, htx, htv, hb]
              exact ackBefore_nil
            | ok body =>
              simp [processMessage, hf, hty, ha, htx, htv, hb]
              exact ackBefore_text_single phone body
        | false =>
          simp [processMessage, hf, hty, ha, htx]; exact ackBefore_nil

theorem ackBefore_runAll (f : Json → List Event × Bool)
    (hf : ∀ x, AckBefore (f x).1) (xs : List Json) :
    AckBefore (runAll f xs).1 := by
  induction xs with
  | nil => exact ackBefore_nil
  | cons x rest ih =>
    rw [runAll]
    by_cases h : (f x).2
    · simp only [h, if_true]
      exact ackBefore_append (hf x) ih
    · simp only [h, if_false]
      exact hf x

theorem ackBefore_processChange (c : Json) :
    AckBefore (processChange c).1 := by
  cases hv : pyGetAttr c "value" with
  | error e => simp [processChange, hv]; exact ackBefore_nil
  | ok vOpt =>
    cases hs : pyContains (vOpt.getD (Json.obj [])) "statuses" with
    | error e => simp [processChange, hv, hs]; exact ackBefore_nil
    | ok b1 =>
      cases b1 with
      | true => simp [processChange, hv, hs]; exact ackBefore_nil
      | false =>
        cases hm : pyContains (vOpt.getD (Json.obj [])) "messages" with
        | error e => simp [processChange, hv, hs, hm]; exact ackBefore_nil
        | ok b2 =>
          cases b2 with
          | false => simp [processChange, hv, hs, hm]; exact ackBefore_nil
          | true =>
            cases hmm : pyIndex (vOpt.getD (Json.obj [])) "messages" with
            | error e =>
              simp [processChange, hv, hs, hm, hmm]; exact ackBefore_nil
            | ok msgs =>
              cases hit : pyIter msgs with
              | error e =>
                simp [processChange, hv, hs, hm, hmm, hit]
                exact ackBefore_nil
              | ok ms =>
                simp [processChange, hv, hs, hm, hmm, hit]
                exact ackBefore_runAll _ ackBefore_processMessage ms

theorem ackBefore_processEntry (entry : Json) :
    AckBefore (processEntry entry).1 := by
  cases hc : pyContains entry "changes" with
  | error e => simp [processEntry, hc]; exact ackBefore_nil
  | ok b =>
    cases b with
    | false => simp [processEntry, hc]; exact ackBefore_nil
    | true =>
      cases hcs : pyIndex entry "changes" with
      | error e => simp [processEntry, hc, hcs]; exact ackBefore_nil
      | ok cs =>
        cases hit : pyIter cs with
        | error e => simp [processEntry, hc, hcs, hit]; exact ackBefore_nil
        | ok changes =>
          simp [processEntry, hc, hcs, hit]
          exact ackBefore_runAll _ ackBefore_processChange changes

theorem ackBefore_webhook_post (body : Option Json) :
    AckBefore (webhook_post body).2 := by
  cases body with
  | none => exact ackBefore_nil
  | some data =>
    cases data with
    | obj fs =>
      cases hl : jlookup fs "entry" with
      | none => simp [webhook_post, hl]; exact ackBefore_nil
      | some e =>
        cases ht : pyTruthy e with
        | false => simp [webhook_post, hl, ht]; exact ackBefore_nil
        | true =>
          cases hit : pyIter e with
          | error er => simp [webhook_post, hl, ht, hit]; exact ackBefore_nil
          | ok entries =>
            simp [webhook_post, hl, ht, hit]
            exact ackBefore_runAll _ ackBefore_processEntry entries
    | null => exact ackBefore_nil
    | bool b => exact ackBefore_nil
    | num n => exact ackBefore_nil
    | str s => exact ackBefore_nil
    | arr xs => exact ackBefore_nil

/-- C5: in the event trace of any webhook POST, every submission of a
voice-pipeline background task is preceded, strictly earlier and inside
the synchronous handler, by the acknowledgment send to the same sender:
the acknowledgment happens before the task reaches the executor. -/
theorem webhook_ack_precedes_voice_submission (body : Option Json)
    (i : Nat) (p a : Json)
    (h : (webhook_post body).2[i]? = some (Event.submitVoiceTask p a)) :
    ∃ j : Nat, j < i ∧ (webhook_post body).2[j]?
        = some (Event.sendWhatsApp p ackMsg) :=
  ackBefore_webhook_post body i p a h

/-- C5 witness: in the trace of a concrete audio delivery the
acknowledgment send stands at index 0, before the task submission at
index 1. -/
theorem webhook_ack_precedes_voice_submission_witness :
    ∃ j : Nat, j < 1 ∧
      (webhook_post (some (wrapMessages [demoAudioMessage]))).2[j]?
        = some (Event.sendWhatsApp (.str "15559876543") ackMsg) :=
  webhook_ack_precedes_voice_submission
    (some (wrapMessages [demoAudioMessage])) 1
    (.str "15559876543") (.str "media1") rfl

theorem runAll_singleton (f : Json → List Event × Bool) (x : Json) :
    runAll f [x] = f x := by
  rw [runAll]
  by_cases h : (f x).2
  · simp [h, runAll]
    exact Prod.ext rfl h.symm
  · simp [h]

theorem runAll_break (f : Json → List Event × Bool) (m : Json)
    (h : (f m).2 = false) (pre post : List Json) :
    (runAll f (pre ++ m :: post)).1 = (runAll f (pre ++ [m])).1 := by
  induction pre with
  | nil => simp [runAll, h]
  | cons x xs ih =>
    simp only [List.cons_append, runAll]
    by_cases hx : (f x).2
    · simp [hx, ih]
    · simp [hx]

theorem webhook_post_wrapMessages (msgs : List Json) :
    webhook_post (some (wrapMessages msgs))
      = (.success, (runAll processMessage msgs).1) := by
  rw [wrapMessages, webhook_post]
  simp [jlookup, pyTruthy, pyIter, runAll_singleton, processEntry,
        processChange, pyContains, pyIndex, pyGetAttr]

/-- C10: when processing one message of a delivery payload raises (for
example a message entry without its from field), every message after it
in that payload is skipped, because the single try block around the
whole loop aborts it, while the HTTP response is still the success
acknowledgment. -/
theorem webhook_message_error_skips_rest (pre post : List Json) (m : Json)
    (h : (processMessage m).2 = false) :
    (webhook_post (some (wrapMessages (pre ++ m :: post)))).2
      = (webhook_post (some (wrapMessages (pre ++ [m])))).2
  ∧ (webhook_post (some (wrapMessages (pre ++ m :: post)))).1
      = .success := by
  rw [webhook_post_wrapMessages, webhook_post_wrapMessages]
  exact ⟨runAll_break processMessage m h pre post, rfl⟩

/-- C10 witness: a payload holding a broken message followed by a valid
text message produces the same events as the broken message alone (the
valid message is never dispatched), and the response is success. -/
theorem webhook_message_error_skips_rest_witness :
    (webhook_post (some (wrapMessages
        [demoBrokenMessage, demoTextMessage]))).2
      = (webhook_post (some (wrapMessages [demoBrokenMessage]))).2
  ∧ (webhook_post (some (wrapMessages
        [demoBrokenMessage, demoTextMessage]))).1 = .success :=
  webhook_message_error_skips_rest [] [demoTextMessage] demoBrokenMessage rfl

end Middleware
